import Mathlib

/-!
Verification of the PixelMagic crop-geometry engine and tool-session logic
(src/frontend/assets/js/crop.js, src/frontend/assets/js/utils.js, and the
upscale module).  Numeric state is modelled over the rationals, the exact
idealisation of the JavaScript floating-point arithmetic; assertions the
specification phrases as "within floating-point tolerance" are stated as
exact equalities over this idealisation.
-/

namespace PixelMagic

/-- The crop Geometry State: a plain record of display-space pixels,
mirroring the mutable `cropState` object of crop.js. -/
structure CropState where
  x : ℚ
  y : ℚ
  width : ℚ
  height : ℚ
deriving DecidableEq, Repr

/-- utils.js `clamp(value, min, max) = Math.min(Math.max(value, min), max)`. -/
def clamp (value lo hi : ℚ) : ℚ :=
  min (max value lo) hi

/-- The eight resize handles of the crop box. -/
inductive Handle where
  | tl | tr | bl | br | tm | bm | ml | mr
deriving DecidableEq, Repr

/-- JS `activeHandle.includes('l')`: handles whose name contains the letter l. -/
def Handle.includesL : Handle → Bool
  | .tl | .bl | .ml => true
  | _ => false

/-- JS `activeHandle.includes('t')`: handles whose name contains the letter t. -/
def Handle.includesT : Handle → Bool
  | .tl | .tr | .tm => true
  | _ => false

/-- JS `['tl', 'tr', 'bl', 'br'].includes(activeHandle)`. -/
def Handle.isCorner : Handle → Bool
  | .tl | .tr | .bl | .br => true
  | _ => false

/-- crop.js `moveCropBox(dx, dy)`: position from the gesture-start snapshot
plus the pointer delta, clamped against the current box size; the JS code
reads the size from the live `cropState` (`cur`), not from the snapshot. -/
def moveCropBox (W H : ℚ) (startCrop cur : CropState) (dx dy : ℚ) : CropState :=
  ⟨clamp (startCrop.x + dx) 0 (W - cur.width),
   clamp (startCrop.y + dy) 0 (H - cur.height),
   cur.width, cur.height⟩

/-- crop.js `resizeCropBox`, the `switch (activeHandle)` block: apply the raw
pointer delta to the edges the handle touches. -/
def rawResize (handle : Handle) (startCrop : CropState) (dx dy : ℚ) : CropState :=
  match handle with
  | .tl => ⟨startCrop.x + dx, startCrop.y + dy, startCrop.width - dx, startCrop.height - dy⟩
  | .tr => ⟨startCrop.x, startCrop.y + dy, startCrop.width + dx, startCrop.height - dy⟩
  | .bl => ⟨startCrop.x + dx, startCrop.y, startCrop.width - dx, startCrop.height + dy⟩
  | .br => ⟨startCrop.x, startCrop.y, startCrop.width + dx, startCrop.height + dy⟩
  | .tm => ⟨startCrop.x, startCrop.y + dy, startCrop.width, startCrop.height - dy⟩
  | .bm => ⟨startCrop.x, startCrop.y, startCrop.width, startCrop.height + dy⟩
  | .ml => ⟨startCrop.x + dx, startCrop.y, startCrop.width - dx, startCrop.height⟩
  | .mr => ⟨startCrop.x, startCrop.y, startCrop.width + dx, startCrop.height⟩

/-- crop.js `resizeCropBox`, the "Enforce minimum size" block: a dimension
under 30 is raised to 30, pinning the opposite edge for left/top handles. -/
def minSizeStep (handle : Handle) (startCrop s : CropState) : CropState :=
  let s1 : CropState :=
    if s.width < 30 then
      ⟨if handle.includesL then startCrop.x + startCrop.width - 30 else s.x,
       s.y, 30, s.height⟩
    else s
  if s1.height < 30 then
    ⟨s1.x,
     if handle.includesT then startCrop.y + startCrop.height - 30 else s1.y,
     s1.width, 30⟩
  else s1

/-- crop.js `resizeCropBox`, the "Enforce aspect ratio if set" block: for a
corner handle with a truthy `aspectRatio`, compare the current width/height
ratio to the target and rederive one dimension, re-anchoring the opposite
corner on the left/top side. -/
def aspectStep (handle : Handle) (aspect : Option ℚ) (startCrop s : CropState) : CropState :=
  match aspect with
  | none => s
  | some r =>
    if r ≠ 0 ∧ handle.isCorner = true then
      if s.width / s.height > r then
        let w := s.height * r
        ⟨if handle.includesL then startCrop.x + startCrop.width - w else s.x,
         s.y, w, s.height⟩
      else
        let h := s.width / r
        ⟨s.x,
         if handle.includesT then startCrop.y + startCrop.height - h else s.y,
         s.width, h⟩
    else s

/-- crop.js `resizeCropBox`, the "Bounds check" block: fold negative
positions into the size, then cut the size at the display edges. -/
def boundsStep (W H : ℚ) (s : CropState) : CropState :=
  let s1 : CropState := if s.x < 0 then ⟨0, s.y, s.width + s.x, s.height⟩ else s
  let s2 : CropState := if s1.y < 0 then ⟨s1.x, 0, s1.width, s1.height + s1.y⟩ else s1
  let s3 : CropState := if s2.x + s2.width > W then ⟨s2.x, s2.y, W - s2.x, s2.height⟩ else s2
  if s3.y + s3.height > H then ⟨s3.x, s3.y, s3.width, H - s3.y⟩ else s3

/-- crop.js `resizeCropBox`, the "Final minimum size check":
`newW = Math.max(newW, minSize); newH = Math.max(newH, minSize)`. -/
def finalMinStep (s : CropState) : CropState :=
  ⟨s.x, s.y, max s.width 30, max s.height 30⟩

/-- The state reached inside `resizeCropBox` after the raw delta and the
minimum-size enforcement, before the aspect-ratio block. -/
def resizePreAspect (handle : Handle) (startCrop : CropState) (dx dy : ℚ) : CropState :=
  minSizeStep handle startCrop (rawResize handle startCrop dx dy)

/-- The state reached inside `resizeCropBox` after the aspect-ratio block,
before the bounds check. -/
def resizePostAspect (handle : Handle) (aspect : Option ℚ) (startCrop : CropState)
    (dx dy : ℚ) : CropState :=
  aspectStep handle aspect startCrop (resizePreAspect handle startCrop dx dy)

/-- crop.js `resizeCropBox(dx, dy)` in full: raw delta, minimum size,
aspect ratio, bounds check, final minimum size. -/
def resizeCropBox (handle : Handle) (aspect : Option ℚ) (W H : ℚ)
    (startCrop : CropState) (dx dy : ℚ) : CropState :=
  finalMinStep (boundsStep W H (resizePostAspect handle aspect startCrop dx dy))

/-- crop.js `constrainCropBox()`: with a truthy aspect ratio, rederive one
dimension by the compare-ratio tie-break, then push the box back inside the
display bounds and clamp the position at 0. -/
def constrainCropBox (aspect : Option ℚ) (W H : ℚ) (s : CropState) : CropState :=
  match aspect with
  | none => s
  | some r =>
    if r = 0 then s
    else
      let s1 : CropState :=
        if s.width / s.height > r then ⟨s.x, s.y, s.height * r, s.height⟩
        else ⟨s.x, s.y, s.width, s.width / r⟩
      let s2 : CropState := if s1.x + s1.width > W then ⟨W - s1.width, s1.y, s1.width, s1.height⟩ else s1
      let s3 : CropState := if s2.y + s2.height > H then ⟨s2.x, H - s2.height, s2.width, s2.height⟩ else s2
      ⟨max 0 s3.x, max 0 s3.y, s3.width, s3.height⟩

/-- JS `parseInt(field.value) || d`: a missing or malformed field (`none`,
parseInt gives NaN) and the falsy value 0 both fall back to the default. -/
def jsOr (v : Option ℤ) (d : ℤ) : ℤ :=
  match v with
  | none => d
  | some n => if n = 0 then d else n

/-- JS truthiness of the `aspectRatio` variable (`null` and `0` are falsy). -/
def aspectTruthy : Option ℚ → Bool
  | none => false
  | some r => r ≠ 0

/-- crop.js `handleManualInput`, the conversion-and-clamp part: defaults for
malformed fields (0 for positions, 100 for sizes), division by `scale` into
display space, position clamped to `[0, displayDim - 30]` and size clamped
to `[30, displayDim - position]` with the unclamped converted position. -/
def manualClampedState (scale W H : ℚ) (ix iy iw ih : Option ℤ) : CropState :=
  let x : ℚ := (jsOr ix 0 : ℤ) / scale
  let y : ℚ := (jsOr iy 0 : ℤ) / scale
  let w : ℚ := (jsOr iw 100 : ℤ) / scale
  let h : ℚ := (jsOr ih 100 : ℤ) / scale
  ⟨clamp x 0 (W - 30), clamp y 0 (H - 30), clamp w 30 (W - x), clamp h 30 (H - y)⟩

/-- crop.js `handleManualInput()`: clamp the typed source-pixel values into
display space, then re-constrain through `constrainCropBox` when an aspect
ratio is active. -/
def handleManualInput (scale W H : ℚ) (aspect : Option ℚ)
    (ix iy iw ih : Option ℤ) : CropState :=
  let c := manualClampedState scale W H ix iy iw ih
  if aspectTruthy aspect then constrainCropBox aspect W H c else c

/-- The Geometry State invariant of the specification (minSize = 30). -/
def Inv (W H : ℚ) (s : CropState) : Prop :=
  0 ≤ s.x ∧ 0 ≤ s.y ∧ s.x + s.width ≤ W ∧ s.y + s.height ≤ H ∧
    30 ≤ s.width ∧ 30 ≤ s.height

instance (W H : ℚ) (s : CropState) : Decidable (Inv W H s) := by
  unfold Inv; infer_instance

/-- crop.js `recalculateScale()`: `scale = imageWidth / displayWidth` when
both are positive, 1 otherwise. -/
def recalculateScale (imageWidth displayWidth : ℚ) : ℚ :=
  if 0 < displayWidth ∧ 0 < imageWidth then imageWidth / displayWidth else 1

/-- Display-to-source conversion: multiplication by `scale`
(crop.js `updateCropBox`, `applyCrop`). -/
def toSource (scale p : ℚ) : ℚ := p * scale

/-- Source-to-display conversion: division by `scale`
(crop.js `handleManualInput`). -/
def toDisplay (scale p : ℚ) : ℚ := p / scale

/-- The enabled/active state of the upscale tool's scale cards together with
the currently selected scale factor (upscale module in utils.js). -/
structure UpscaleOptions where
  enabled2 : Bool
  enabled4 : Bool
  enabled8 : Bool
  selected : ℕ
deriving DecidableEq, Repr

/-- The scale-option block of the upscale module's `handleFileSelect`, run
after each new upload with the image's true dimensions: the 8x card is reset
to enabled and then disabled when `dimension * 8 > 10000` (demoting an
8x selection to 4x), the 4x card likewise for `dimension * 4 > 10000`
(demoting a 4x selection to 2x) and re-enabled otherwise; the 2x card is
never touched by this handler. -/
def upscaleSelectStep (w h : ℕ) (o : UpscaleOptions) : UpscaleOptions :=
  let o1 : UpscaleOptions := ⟨o.enabled2, o.enabled4, true, o.selected⟩
  let o2 : UpscaleOptions :=
    if 10000 < w * 8 ∨ 10000 < h * 8 then
      ⟨o1.enabled2, o1.enabled4, false, if o1.selected = 8 then 4 else o1.selected⟩
    else o1
  if 10000 < w * 4 ∨ 10000 < h * 4 then
    ⟨o2.enabled2, false, o2.enabled8, if o2.selected = 4 then 2 else o2.selected⟩
  else ⟨o2.enabled2, true, o2.enabled8, o2.selected⟩

/-- The response of the `/crop` endpoint: `{filename, imageUrl, width, height}`
(the image URL plays no role in the session-state claims). -/
structure CropResponse where
  filename : String
  width : ℕ
  height : ℕ
deriving DecidableEq, Repr

/-- The crop tool's session state: the current source asset reference
`uploadedFilename` and the true pixel dimensions (crop.js module state). -/
structure CropSession where
  uploadedFilename : Option String
  imageWidth : ℕ
  imageHeight : ℕ
deriving DecidableEq, Repr

/-- A session-step outcome: the new session state and the toast text shown
to the user. -/
structure StepResult (σ : Type) where
  session : σ
  toast : String
deriving DecidableEq, Repr

/-- JS `new Error(error.detail || defaultMsg)`: the `detail` field of a
non-2xx JSON body, with the tool's default when the field is absent or the
falsy empty string (cropImageAPI, upscaleImage, uploadFile in utils.js). -/
def errorMessageFromResponse (defaultMsg : String) (detail : Option String) : String :=
  match detail with
  | some d => if d = "" then defaultMsg else d
  | none => defaultMsg

/-- The filename form field a `cropImageAPI` call sends: the session's
current source asset (crop.js `applyCrop` passes `uploadedFilename`). -/
def cropTarget (s : CropSession) : Option String :=
  s.uploadedFilename

/-- crop.js `applyCrop()` as a step on the session state: without an
uploaded asset only a warning is shown; on a successful `/crop` call the
returned filename becomes the new `uploadedFilename` (and the dimensions
are updated); on failure the session is left untouched and the error
message is shown inside a `Crop failed:`-prefixed toast. -/
def applyCropStep (s : CropSession) (outcome : Except String CropResponse) :
    StepResult CropSession :=
  match s.uploadedFilename with
  | none => ⟨s, "Please upload an image first"⟩
  | some _ =>
    match outcome with
    | .ok r => ⟨⟨some r.filename, r.width, r.height⟩, "Image cropped successfully!"⟩
    | .error msg => ⟨s, "Crop failed: " ++ msg⟩

/-- The upscale tool's session state (upscale module in utils.js). -/
structure UpscaleSession where
  uploadedFilename : Option String
  processedFilename : Option String
  originalWidth : ℕ
  originalHeight : ℕ
  selectedScale : ℕ
deriving DecidableEq, Repr

/-- The upscale module's `processUpscale()` as a step on the session state:
local validation first (missing upload, output-dimension limit), then on a
successful `/upscale` call the returned filename becomes
`processedFilename`; on failure every session field is left untouched and
the error message is shown inside an `Upscale failed:`-prefixed toast. -/
def processUpscaleStep (s : UpscaleSession) (outcome : Except String String) :
    StepResult UpscaleSession :=
  match s.uploadedFilename with
  | none => ⟨s, "Please upload an image first"⟩
  | some _ =>
    if 10000 < s.originalWidth * s.selectedScale ∨
        10000 < s.originalHeight * s.selectedScale then
      ⟨s, "Resulting image would be too large. Try a smaller scale."⟩
    else
      match outcome with
      | .ok fname =>
        ⟨⟨s.uploadedFilename, some fname, s.originalWidth, s.originalHeight,
           s.selectedScale⟩,
         "Image upscaled " ++ toString s.selectedScale ++ "x successfully!"⟩
      | .error msg => ⟨s, "Upscale failed: " ++ msg⟩

/-! Helper lemmas shared by the claim theorems. -/

/-- After the minimum-size enforcement the width is at least 30. -/
lemma minSize_width_ge (handle : Handle) (startCrop s : CropState) :
    30 ≤ (minSizeStep handle startCrop s).width := by
  unfold minSizeStep
  dsimp only
  split_ifs <;> (try dsimp only) <;> linarith

/-- After the minimum-size enforcement the height is at least 30. -/
lemma minSize_height_ge (handle : Handle) (startCrop s : CropState) :
    30 ≤ (minSizeStep handle startCrop s).height := by
  unfold minSizeStep
  dsimp only
  split_ifs <;> (try dsimp only) <;> linarith

/-- For a handle touching the left edge, the raw delta and the minimum-size
enforcement both keep the right edge `x + width` where the gesture started. -/
lemma preAspect_sum_x (handle : Handle) (startCrop : CropState) (dx dy : ℚ)
    (hl : handle.includesL = true) :
    (resizePreAspect handle startCrop dx dy).x
      + (resizePreAspect handle startCrop dx dy).width
      = startCrop.x + startCrop.width := by
  cases handle <;>
    simp only [Handle.includesL, Bool.false_eq_true] at hl <;>
    unfold resizePreAspect minSizeStep rawResize <;>
    simp only [Handle.includesL, Handle.includesT, eq_self_iff_true,
      Bool.false_eq_true, if_true, if_false] <;>
    split_ifs <;> (try dsimp only) <;> ring

/-- For a handle away from the left edge, the position `x` is untouched by
the raw delta and the minimum-size enforcement. -/
lemma preAspect_x_eq (handle : Handle) (startCrop : CropState) (dx dy : ℚ)
    (hl : handle.includesL = false) :
    (resizePreAspect handle startCrop dx dy).x = startCrop.x := by
  cases handle <;>
    simp only [Handle.includesL, Bool.true_eq_false] at hl <;>
    unfold resizePreAspect minSizeStep rawResize <;>
    simp only [Handle.includesL, Handle.includesT, eq_self_iff_true,
      Bool.false_eq_true, if_true, if_false] <;>
    split_ifs <;> (try dsimp only)

/-- For a handle touching the top edge, the raw delta and the minimum-size
enforcement both keep the bottom edge `y + height` where the gesture
started. -/
lemma preAspect_sum_y (handle : Handle) (startCrop : CropState) (dx dy : ℚ)
    (ht : handle.includesT = true) :
    (resizePreAspect handle startCrop dx dy).y
      + (resizePreAspect handle startCrop dx dy).height
      = startCrop.y + startCrop.height := by
  cases handle <;>
    simp only [Handle.includesT, Bool.false_eq_true] at ht <;>
    unfold resizePreAspect minSizeStep rawResize <;>
    simp only [Handle.includesL, Handle.includesT, eq_self_iff_true,
      Bool.false_eq_true, if_true, if_false] <;>
    split_ifs <;> (try dsimp only) <;> ring

/-- For a handle away from the top edge, the position `y` is untouched by
the raw delta and the minimum-size enforcement. -/
lemma preAspect_y_eq (handle : Handle) (startCrop : CropState) (dx dy : ℚ)
    (ht : handle.includesT = false) :
    (resizePreAspect handle startCrop dx dy).y = startCrop.y := by
  cases handle <;>
    simp only [Handle.includesT, Bool.true_eq_false] at ht <;>
    unfold resizePreAspect minSizeStep rawResize <;>
    simp only [Handle.includesL, Handle.includesT, eq_self_iff_true,
      Bool.false_eq_true, if_true, if_false] <;>
    split_ifs <;> (try dsimp only)

/-- Whatever state reaches the bounds check, the final two phases of
`resizeCropBox` force a nonnegative position and both dimensions ≥ 30. -/
lemma boundsFinal_basic (W H : ℚ) (m : CropState) :
    0 ≤ (finalMinStep (boundsStep W H m)).x
    ∧ 0 ≤ (finalMinStep (boundsStep W H m)).y
    ∧ 30 ≤ (finalMinStep (boundsStep W H m)).width
    ∧ 30 ≤ (finalMinStep (boundsStep W H m)).height := by
  obtain ⟨x, y, w, h⟩ := m
  unfold boundsStep finalMinStep
  dsimp only
  split_ifs <;> (try dsimp only at *) <;>
    exact ⟨by linarith, by linarith, le_max_right _ _, le_max_right _ _⟩

set_option maxHeartbeats 1600000 in
/-- If the state reaching the bounds check has both dimensions ≥ 30, both
far edges at least 30, and on each axis either fits inside the display or
has its position in `[0, dim - 30]`, then the bounds check and the final
minimum-size check deliver the full Geometry State invariant. -/
lemma boundsFinal_inv (W H : ℚ) (m : CropState)
    (hw : 30 ≤ m.width) (hh : 30 ≤ m.height)
    (hxw : 30 ≤ m.x + m.width) (hyh : 30 ≤ m.y + m.height)
    (hX : m.x + m.width ≤ W ∨ (0 ≤ m.x ∧ m.x ≤ W - 30))
    (hY : m.y + m.height ≤ H ∨ (0 ≤ m.y ∧ m.y ≤ H - 30)) :
    Inv W H (finalMinStep (boundsStep W H m)) := by
  obtain ⟨x, y, w, h⟩ := m
  dsimp only at hw hh hxw hyh hX hY
  unfold boundsStep finalMinStep Inv
  rcases hX with hX | ⟨hX1, hX2⟩ <;> rcases hY with hY | ⟨hY1, hY2⟩ <;>
    dsimp only <;> split_ifs <;> (try dsimp only at *) <;>
    refine ⟨?_, ?_, ?_, ?_, ?_, ?_⟩ <;>
    (try simp only [max_def]) <;> (try split_ifs) <;>
    (try dsimp only at *) <;> linarith

/-- The state reaching the aspect-ratio block of `resizeCropBox` satisfies
the premises of `boundsFinal_inv` whenever the gesture-start state satisfies
the invariant. -/
lemma preAspect_props (handle : Handle) (W H : ℚ) (startCrop : CropState)
    (dx dy : ℚ) (hs : Inv W H startCrop) :
    30 ≤ (resizePreAspect handle startCrop dx dy).width
    ∧ 30 ≤ (resizePreAspect handle startCrop dx dy).height
    ∧ 30 ≤ (resizePreAspect handle startCrop dx dy).x
        + (resizePreAspect handle startCrop dx dy).width
    ∧ 30 ≤ (resizePreAspect handle startCrop dx dy).y
        + (resizePreAspect handle startCrop dx dy).height
    ∧ ((resizePreAspect handle startCrop dx dy).x
          + (resizePreAspect handle startCrop dx dy).width ≤ W
        ∨ (0 ≤ (resizePreAspect handle startCrop dx dy).x
            ∧ (resizePreAspect handle startCrop dx dy).x ≤ W - 30))
    ∧ ((resizePreAspect handle startCrop dx dy).y
          + (resizePreAspect handle startCrop dx dy).height ≤ H
        ∨ (0 ≤ (resizePreAspect handle startCrop dx dy).y
            ∧ (resizePreAspect handle startCrop dx dy).y ≤ H - 30)) := by
  obtain ⟨sx, sy, sw, sh⟩ := startCrop
  obtain ⟨h1, h2, h3, h4, h5, h6⟩ := hs
  dsimp only at h1 h2 h3 h4 h5 h6
  cases handle <;>
    unfold resizePreAspect minSizeStep rawResize <;>
    simp only [Handle.includesL, Handle.includesT, eq_self_iff_true,
      Bool.false_eq_true, if_true, if_false] <;>
    split_ifs <;> (try dsimp only at *) <;>
    refine ⟨by linarith, by linarith, by linarith, by linarith, ?_, ?_⟩ <;>
    first
      | (left; linarith)
      | (right; exact ⟨by linarith, by linarith⟩)

/-- Dragging preserves the Geometry State invariant: the clamped position
stays within `[0, dim - size]` on both axes and the size is unchanged. -/
lemma move_inv (W H : ℚ) (startCrop cur : CropState) (dx dy : ℚ)
    (hw : cur.width = startCrop.width) (hh : cur.height = startCrop.height)
    (hs : Inv W H startCrop) : Inv W H (moveCropBox W H startCrop cur dx dy) := by
  obtain ⟨h1, h2, h3, h4, h5, h6⟩ := hs
  unfold moveCropBox clamp Inv
  rw [hw, hh]
  dsimp only
  refine ⟨le_min (le_max_right _ _) (by linarith),
          le_min (le_max_right _ _) (by linarith), ?_, ?_, by linarith, by linarith⟩
  · have := min_le_right (max (startCrop.x + dx) 0) (W - startCrop.width)
    linarith
  · have := min_le_right (max (startCrop.y + dy) 0) (H - startCrop.height)
    linarith

/-- With a corner handle and a nonzero ratio, the aspect-ratio block takes
exactly one of its two rederivation branches. -/
lemma aspectStep_corner (handle : Handle) (r : ℚ) (startCrop s : CropState)
    (hc : handle.isCorner = true) (hr : r ≠ 0) :
    aspectStep handle (some r) startCrop s
      = if s.width / s.height > r then
          ⟨if handle.includesL = true then
              startCrop.x + startCrop.width - s.height * r
            else s.x,
           s.y, s.height * r, s.height⟩
        else
          ⟨s.x,
           if handle.includesT = true then
              startCrop.y + startCrop.height - s.width / r
            else s.y,
           s.width, s.width / r⟩ := by
  unfold aspectStep
  dsimp only
  rw [if_pos ⟨hr, hc⟩]

/-! The claim theorems. -/

/-- C1 is false on the code: from the invariant-satisfying start state
(0, 400, 30, 200) on a 600 × 600 display, a top-left resize with the
16:9 aspect ratio locked and zero pointer delta produces a box whose
bottom edge lies below the display (y + height = 613.125 > 600): the
aspect step shrinks the height to 16.875 and moves y down to keep the
anchored bottom edge, the bounds check passes, and the final minimum-size
check then pushes the height back up to 30 without re-checking bounds. -/
theorem spec_C1_counterexample :
    Inv 600 600 ⟨0, 400, 30, 200⟩
    ∧ (30 : ℚ) ≤ 600
    ∧ ¬ Inv 600 600 (resizeCropBox .tl (some (16 / 9)) 600 600 ⟨0, 400, 30, 200⟩ 0 0) := by
  have heval : resizeCropBox .tl (some (16 / 9)) 600 600 ⟨0, 400, 30, 200⟩ 0 0
      = ⟨0, 4665 / 8, 30, 30⟩ := by
    norm_num [resizeCropBox, resizePostAspect, resizePreAspect, aspectStep,
      minSizeStep, rawResize, boundsStep, finalMinStep, Handle.isCorner,
      Handle.includesL, Handle.includesT, min_def, max_def]
  refine ⟨by norm_num [Inv], by norm_num, ?_⟩
  rw [heval]
  norm_num [Inv]

/-- C1 amended: dragging preserves the full Geometry State invariant, an
aspect-free resize from any handle preserves the full invariant, and every
resize — aspect-locked or not — still guarantees a nonnegative position and
both dimensions ≥ 30; only the containment bounds can be violated, by an
aspect-locked corner resize (and the manual-input path can undercut the
minimum size, see C10). -/
theorem spec_C1_amended :
    (∀ (W H : ℚ) (startCrop cur : CropState) (dx dy : ℚ),
        cur.width = startCrop.width → cur.height = startCrop.height →
        Inv W H startCrop → Inv W H (moveCropBox W H startCrop cur dx dy))
    ∧ (∀ (handle : Handle) (W H : ℚ) (startCrop : CropState) (dx dy : ℚ),
        Inv W H startCrop →
        Inv W H (resizeCropBox handle none W H startCrop dx dy))
    ∧ (∀ (handle : Handle) (aspect : Option ℚ) (W H : ℚ)
          (startCrop : CropState) (dx dy : ℚ),
        0 ≤ (resizeCropBox handle aspect W H startCrop dx dy).x
        ∧ 0 ≤ (resizeCropBox handle aspect W H startCrop dx dy).y
        ∧ 30 ≤ (resizeCropBox handle aspect W H startCrop dx dy).width
        ∧ 30 ≤ (resizeCropBox handle aspect W H startCrop dx dy).height) := by
  refine ⟨move_inv, ?_, ?_⟩
  · intro handle W H startCrop dx dy hs
    have hm := preAspect_props handle W H startCrop dx dy hs
    have heq : resizePostAspect handle none startCrop dx dy
        = resizePreAspect handle startCrop dx dy := rfl
    unfold resizeCropBox
    rw [heq]
    exact boundsFinal_inv W H _ hm.1 hm.2.1 hm.2.2.1 hm.2.2.2.1
      hm.2.2.2.2.1 hm.2.2.2.2.2
  · intro handle aspect W H startCrop dx dy
    exact boundsFinal_basic W H _

/-- Witness for C1 amended: a clamped long drag keeps the invariant, and an
aspect-free bottom-right resize keeps the invariant, from the concrete
start state (10, 10, 40, 40) on a 100 × 100 display. -/
theorem spec_C1_amended_witness :
    Inv 100 100 (moveCropBox 100 100 ⟨10, 10, 40, 40⟩ ⟨25, 25, 40, 40⟩ 200 200)
    ∧ Inv 100 100 (resizeCropBox .br none 100 100 ⟨10, 10, 40, 40⟩ 5 5) :=
  ⟨spec_C1_amended.1 100 100 ⟨10, 10, 40, 40⟩ ⟨25, 25, 40, 40⟩ 200 200 rfl rfl
      (by norm_num [Inv]),
   spec_C1_amended.2.1 .br 100 100 ⟨10, 10, 40, 40⟩ 5 5 (by norm_num [Inv])⟩

/-- C2 is false on the code as stated: a bottom-right resize of the
30 × 30 box at the origin of a 1000 × 1000 display with the 16:9 ratio
locked and zero delta leaves the bounds check with nothing to clamp — the
post-aspect state passes through it unchanged — yet the resulting box is
30 × 30 with ratio 1 ≠ 16/9, because the final minimum-size check (not the
bounds clamp) raised the aspect-derived height 16.875 back to 30. -/
theorem spec_C2_counterexample :
    boundsStep 1000 1000 (resizePostAspect .br (some (16 / 9)) ⟨0, 0, 30, 30⟩ 0 0)
      = resizePostAspect .br (some (16 / 9)) ⟨0, 0, 30, 30⟩ 0 0
    ∧ resizeCropBox .br (some (16 / 9)) 1000 1000 ⟨0, 0, 30, 30⟩ 0 0
      = ⟨0, 0, 30, 30⟩
    ∧ (resizeCropBox .br (some (16 / 9)) 1000 1000 ⟨0, 0, 30, 30⟩ 0 0).width
        / (resizeCropBox .br (some (16 / 9)) 1000 1000 ⟨0, 0, 30, 30⟩ 0 0).height
      ≠ 16 / 9 := by
  refine ⟨?_, ?_, ?_⟩ <;>
    norm_num [resizeCropBox, resizePostAspect, resizePreAspect, aspectStep,
      minSizeStep, rawResize, boundsStep, finalMinStep, Handle.isCorner,
      Handle.includesL, Handle.includesT, min_def, max_def]

/-- C2 amended: for a corner resize with locked ratio `r > 0`, the aspect
block rederives one dimension by the compare-ratio tie-break so that the
post-aspect width equals `r` times the post-aspect height exactly (over the
rational idealisation), and the anchored opposite corner is preserved
(right edge fixed for left handles, `x` fixed otherwise; bottom edge fixed
for top handles, `y` fixed otherwise); whenever the post-aspect state
already satisfies the invariant — so that neither the bounds clamp nor the
final minimum-size check intervenes — the gesture returns the post-aspect
state itself, and the resulting ratio is exactly `r`. -/
theorem spec_C2_amended (handle : Handle) (r W H : ℚ) (startCrop : CropState)
    (dx dy : ℚ) (hc : handle.isCorner = true) (hr : 0 < r) :
    (resizePostAspect handle (some r) startCrop dx dy).width
        = r * (resizePostAspect handle (some r) startCrop dx dy).height
    ∧ (handle.includesL = true →
        (resizePostAspect handle (some r) startCrop dx dy).x
          + (resizePostAspect handle (some r) startCrop dx dy).width
          = startCrop.x + startCrop.width)
    ∧ (handle.includesL = false →
        (resizePostAspect handle (some r) startCrop dx dy).x = startCrop.x)
    ∧ (handle.includesT = true →
        (resizePostAspect handle (some r) startCrop dx dy).y
          + (resizePostAspect handle (some r) startCrop dx dy).height
          = startCrop.y + startCrop.height)
    ∧ (handle.includesT = false →
        (resizePostAspect handle (some r) startCrop dx dy).y = startCrop.y)
    ∧ (Inv W H (resizePostAspect handle (some r) startCrop dx dy) →
        resizeCropBox handle (some r) W H startCrop dx dy
          = resizePostAspect handle (some r) startCrop dx dy) := by
  have hA := aspectStep_corner handle r startCrop
    (resizePreAspect handle startCrop dx dy) hc (ne_of_gt hr)
  refine ⟨?_, ?_, ?_, ?_, ?_, ?_⟩
  · unfold resizePostAspect
    rw [hA]
    by_cases hgt : (resizePreAspect handle startCrop dx dy).width
        / (resizePreAspect handle startCrop dx dy).height > r
    · rw [if_pos hgt]
      dsimp only
      ring
    · rw [if_neg hgt]
      dsimp only
      rw [mul_comm r, div_mul_cancel₀ _ (ne_of_gt hr)]
  · intro hl
    unfold resizePostAspect
    rw [hA]
    by_cases hgt : (resizePreAspect handle startCrop dx dy).width
        / (resizePreAspect handle startCrop dx dy).height > r
    · rw [if_pos hgt]
      dsimp only
      rw [hl, if_pos rfl]
      ring
    · rw [if_neg hgt]
      dsimp only
      exact preAspect_sum_x handle startCrop dx dy hl
  · intro hl
    unfold resizePostAspect
    rw [hA]
    by_cases hgt : (resizePreAspect handle startCrop dx dy).width
        / (resizePreAspect handle startCrop dx dy).height > r
    · rw [if_pos hgt]
      dsimp only
      rw [hl, if_neg Bool.false_ne_true]
      exact preAspect_x_eq handle startCrop dx dy hl
    · rw [if_neg hgt]
      dsimp only
      exact preAspect_x_eq handle startCrop dx dy hl
  · intro ht
    unfold resizePostAspect
    rw [hA]
    by_cases hgt : (resizePreAspect handle startCrop dx dy).width
        / (resizePreAspect handle startCrop dx dy).height > r
    · rw [if_pos hgt]
      dsimp only
      exact preAspect_sum_y handle startCrop dx dy ht
    · rw [if_neg hgt]
      dsimp only
      rw [ht, if_pos rfl]
      ring
  · intro ht
    unfold resizePostAspect
    rw [hA]
    by_cases hgt : (resizePreAspect handle startCrop dx dy).width
        / (resizePreAspect handle startCrop dx dy).height > r
    · rw [if_pos hgt]
      dsimp only
      exact preAspect_y_eq handle startCrop dx dy ht
    · rw [if_neg hgt]
      dsimp only
      rw [ht, if_neg Bool.false_ne_true]
      exact preAspect_y_eq handle startCrop dx dy ht
  · intro hpost
    obtain ⟨h1, h2, h3, h4, h5, h6⟩ := hpost
    unfold resizeCropBox boundsStep finalMinStep
    dsimp only
    split_ifs <;> first
      | (exfalso; linarith)
      | (rw [max_eq_left h5, max_eq_left h6])

/-- Witness for C2 amended: a bottom-right resize of the 40 × 40 box at the
origin with ratio 1 locked keeps the box at 40 × 40; no clamp intervenes,
the gesture result is the post-aspect state, and its ratio is exactly 1. -/
theorem spec_C2_amended_witness :
    resizeCropBox .br (some 1) 100 100 ⟨0, 0, 40, 40⟩ 0 0
      = resizePostAspect .br (some 1) ⟨0, 0, 40, 40⟩ 0 0
    ∧ (resizePostAspect .br (some 1) ⟨0, 0, 40, 40⟩ 0 0).width
      = 1 * (resizePostAspect .br (some 1) ⟨0, 0, 40, 40⟩ 0 0).height := by
  have h := spec_C2_amended .br 1 100 100 ⟨0, 0, 40, 40⟩ 0 0 rfl (by norm_num)
  refine ⟨h.2.2.2.2.2 ?_, h.1⟩
  norm_num [Inv, resizePostAspect, resizePreAspect, aspectStep, minSizeStep,
    rawResize, Handle.isCorner, Handle.includesL, Handle.includesT,
    min_def, max_def]

/-- C3: for every drag gesture whose start snapshot lies fully inside the
display bounds (and whose live size equals the snapshot size, as every drag
maintains), the new position is the snapshot position plus the delta,
clamped componentwise to `[0, displayDim - size]`, the size is unchanged,
and the box therefore never exits the display bounds. -/
theorem spec_C3_drag_clamped (W H : ℚ) (startCrop cur : CropState) (dx dy : ℚ)
    (hw : cur.width = startCrop.width) (hh : cur.height = startCrop.height)
    (h1 : 0 ≤ startCrop.x) (h2 : 0 ≤ startCrop.y)
    (h3 : startCrop.x + startCrop.width ≤ W)
    (h4 : startCrop.y + startCrop.height ≤ H) :
    moveCropBox W H startCrop cur dx dy
      = ⟨clamp (startCrop.x + dx) 0 (W - startCrop.width),
         clamp (startCrop.y + dy) 0 (H - startCrop.height),
         startCrop.width, startCrop.height⟩
    ∧ 0 ≤ (moveCropBox W H startCrop cur dx dy).x
    ∧ (moveCropBox W H startCrop cur dx dy).x ≤ W - startCrop.width
    ∧ 0 ≤ (moveCropBox W H startCrop cur dx dy).y
    ∧ (moveCropBox W H startCrop cur dx dy).y ≤ H - startCrop.height := by
  unfold moveCropBox clamp
  rw [hw, hh]
  dsimp only
  exact ⟨rfl,
    le_min (le_max_right _ _) (by linarith),
    min_le_right _ _,
    le_min (le_max_right _ _) (by linarith),
    min_le_right _ _⟩

/-- Witness for C3 at a concrete drag: a 40 × 40 box starting at (10, 10)
inside a 100 × 100 display, dragged by (200, 200), lands clamped at
(60, 60) with its size unchanged. -/
theorem spec_C3_drag_clamped_witness :
    0 ≤ (moveCropBox 100 100 ⟨10, 10, 40, 40⟩ ⟨25, 25, 40, 40⟩ 200 200).x
    ∧ (moveCropBox 100 100 ⟨10, 10, 40, 40⟩ ⟨25, 25, 40, 40⟩ 200 200).x ≤ 60 := by
  have h := spec_C3_drag_clamped 100 100 ⟨10, 10, 40, 40⟩ ⟨25, 25, 40, 40⟩ 200 200
    rfl rfl (by norm_num) (by norm_num) (by norm_num) (by norm_num)
  obtain ⟨he, h1, h2, h3, h4⟩ := h
  dsimp only at h2
  norm_num at h2
  exact ⟨h1, h2⟩

/-- C4: with no aspect lock, the manual-input reconciler maps each field
through the 0/100 fallback, divides by the scale, and clamps the position
to `[0, displayDim - 30]` and the size to `[30, displayDim - position]`
(with the unclamped converted position); in particular typing
x=10, y=10, width=200, height=150 at scale 2 on a 800 × 600 display yields
the display-space geometry (5, 5, 100, 75). -/
theorem spec_C4_manual_input (scale W H : ℚ) (ix iy iw ih : Option ℤ)
    (hs : 0 < scale) :
    handleManualInput scale W H none ix iy iw ih
      = ⟨min (max (((jsOr ix 0 : ℤ) : ℚ) / scale) 0) (W - 30),
         min (max (((jsOr iy 0 : ℤ) : ℚ) / scale) 0) (H - 30),
         min (max (((jsOr iw 100 : ℤ) : ℚ) / scale) 30)
           (W - ((jsOr ix 0 : ℤ) : ℚ) / scale),
         min (max (((jsOr ih 100 : ℤ) : ℚ) / scale) 30)
           (H - ((jsOr iy 0 : ℤ) : ℚ) / scale)⟩
    ∧ handleManualInput 2 800 600 none (some 10) (some 10) (some 200) (some 150)
      = ⟨5, 5, 100, 75⟩ :=
  ⟨rfl, by norm_num [handleManualInput, manualClampedState, clamp, jsOr,
    aspectTruthy, min_def, max_def]⟩

/-- Witness for C4: the clamp formula and the concrete example evaluated at
scale 2 on the 800 × 600 display. -/
theorem spec_C4_manual_input_witness :
    handleManualInput 2 800 600 none (some 10) (some 10) (some 200) (some 150)
      = ⟨5, 5, 100, 75⟩ :=
  (spec_C4_manual_input 2 800 600 (some 10) (some 10) (some 200) (some 150)
    (by norm_num)).2

/-- C7: `applyCrop` sends the session's current source asset and, on
success, installs the returned filename as the new source asset, so a
second crop in the same session targets the first crop's result, not the
original upload. -/
theorem spec_C7_chained_crop (A : String) (w0 h0 : ℕ) (r : CropResponse) :
    cropTarget ⟨some A, w0, h0⟩ = some A
    ∧ cropTarget (applyCropStep ⟨some A, w0, h0⟩ (.ok r)).session = some r.filename
    ∧ (r.filename ≠ A →
        cropTarget (applyCropStep ⟨some A, w0, h0⟩ (.ok r)).session ≠ some A) := by
  refine ⟨rfl, rfl, ?_⟩
  intro hne h
  exact hne (Option.some_injective _ h)

/-- Witness for C7: cropping asset a.png into b.png makes the next crop
target b.png rather than a.png. -/
theorem spec_C7_chained_crop_witness :
    cropTarget (applyCropStep ⟨some "a.png", 100, 100⟩
        (.ok ⟨"b.png", 50, 50⟩)).session ≠ some "a.png" :=
  (spec_C7_chained_crop "a.png" 100 100 ⟨"b.png", 50, 50⟩).2.2 (by decide)

/-- C9: with `scale = imageWidth / displayWidth` positive as computed by
`recalculateScale`, the transforms `toSource(p) = p * scale` and
`toDisplay(p) = p / scale` compose to the identity on every point, exactly
over the rational idealisation of the floating-point arithmetic. -/
theorem spec_C9_round_trip (imageWidth displayWidth : ℚ)
    (hi : 0 < imageWidth) (hd : 0 < displayWidth) :
    recalculateScale imageWidth displayWidth = imageWidth / displayWidth
    ∧ 0 < recalculateScale imageWidth displayWidth
    ∧ ∀ p : ℚ,
        toDisplay (recalculateScale imageWidth displayWidth)
          (toSource (recalculateScale imageWidth displayWidth) p) = p := by
  have hs : recalculateScale imageWidth displayWidth = imageWidth / displayWidth := by
    unfold recalculateScale
    rw [if_pos ⟨hd, hi⟩]
  have hpos : 0 < imageWidth / displayWidth := div_pos hi hd
  refine ⟨hs, by rw [hs]; exact hpos, ?_⟩
  intro p
  unfold toDisplay toSource
  rw [hs]
  exact mul_div_cancel_right₀ p (ne_of_gt hpos)

/-- Witness for C9: a 1600-pixel image rendered 800 pixels wide gives
scale 2, and the point 7 survives the round trip. -/
theorem spec_C9_round_trip_witness :
    toDisplay (recalculateScale 1600 800) (toSource (recalculateScale 1600 800) 7) = 7 :=
  (spec_C9_round_trip 1600 800 (by norm_num) (by norm_num)).2.2 7

/-- C10: `clamp` returns its upper bound whenever that bound is below the
lower bound, so a manual input whose converted position exceeds
`displayDim - 30` produces a reconciled size below the 30-pixel minimum —
even a negative one — and the state is accepted without error: typed
x = 790 gives width 10, typed x = 900 gives width −100 on a 800-wide
display at scale 1. -/
theorem spec_C10_clamp_inversion :
    (∀ v lo hi : ℚ, hi < lo → clamp v lo hi = hi)
    ∧ (handleManualInput 1 800 600 none (some 790) (some 0) (some 100) (some 100)).width
        = 10
    ∧ (handleManualInput 1 800 600 none (some 900) (some 0) (some 100) (some 100)).width
        = -100
    ∧ (handleManualInput 1 800 600 none (some 900) (some 0) (some 100) (some 100)).width
        < 30 := by
  refine ⟨?_,
    by norm_num [handleManualInput, manualClampedState, clamp, jsOr,
      aspectTruthy, min_def, max_def],
    by norm_num [handleManualInput, manualClampedState, clamp, jsOr,
      aspectTruthy, min_def, max_def],
    by norm_num [handleManualInput, manualClampedState, clamp, jsOr,
      aspectTruthy, min_def, max_def]⟩
  intro v lo hi h
  unfold clamp
  exact min_eq_right (le_trans (le_of_lt h) (le_max_right v lo))

/-- Witness for C10 at a concrete inverted interval: clamping into
`[30, 10]` returns 10 whatever the value. -/
theorem spec_C10_clamp_inversion_witness : clamp 5 30 10 = 10 :=
  spec_C10_clamp_inversion.1 5 30 10 (by norm_num)

/-- C5 is false on the code: with aspect ratio 1 active, typing
x=0, y=0, width=200, height=50 at scale 1 on a 800 × 600 display yields the
box (0, 0, 50, 50) — the width was recomputed from the height (50 · 1),
whereas always-recompute-height-from-width would have produced height
200 / 1 = 200. -/
theorem spec_C5_counterexample :
    handleManualInput 1 800 600 (some 1) (some 0) (some 0) (some 200) (some 50)
      = ⟨0, 0, 50, 50⟩
    ∧ (50 : ℚ) ≠ 200 / 1 := by
  constructor
  · norm_num [handleManualInput, manualClampedState, constrainCropBox, clamp,
      jsOr, aspectTruthy, min_def, max_def]
  · norm_num

/-- C5 amended: when an aspect ratio `r` is active, manual input
re-constrains the clamped state by `constrainCropBox`'s compare-ratio
tie-break — if the clamped width/height ratio exceeds `r` the width is
recomputed from the height, otherwise the height is recomputed from the
width (the rational idealisation is faithful to the code when the clamped
height is positive). -/
theorem spec_C5_amended (scale W H r : ℚ) (ix iy iw ih : Option ℤ)
    (hr : 0 < r)
    (hh : 0 < (manualClampedState scale W H ix iy iw ih).height) :
    ((manualClampedState scale W H ix iy iw ih).width
          / (manualClampedState scale W H ix iy iw ih).height > r →
        (handleManualInput scale W H (some r) ix iy iw ih).width
            = (manualClampedState scale W H ix iy iw ih).height * r
          ∧ (handleManualInput scale W H (some r) ix iy iw ih).height
            = (manualClampedState scale W H ix iy iw ih).height)
    ∧ (¬ (manualClampedState scale W H ix iy iw ih).width
          / (manualClampedState scale W H ix iy iw ih).height > r →
        (handleManualInput scale W H (some r) ix iy iw ih).width
            = (manualClampedState scale W H ix iy iw ih).width
          ∧ (handleManualInput scale W H (some r) ix iy iw ih).height
            = (manualClampedState scale W H ix iy iw ih).width / r) := by
  have htr : aspectTruthy (some r) = true := by
    simp [aspectTruthy, ne_of_gt hr]
  unfold handleManualInput
  rw [htr]
  rw [if_pos rfl]
  unfold constrainCropBox
  dsimp only
  rw [if_neg (ne_of_gt hr)]
  constructor <;> intro hgt
  · rw [if_pos hgt]
    dsimp only
    split_ifs <;> (try dsimp only) <;> exact ⟨rfl, rfl⟩
  · rw [if_neg hgt]
    dsimp only
    split_ifs <;> (try dsimp only) <;> exact ⟨rfl, rfl⟩

/-- Witness for C5 amended at the counterexample's input: the clamped state
is (0, 0, 200, 50), its ratio 4 exceeds the target 1, and the reconciled
width is indeed recomputed from the height. -/
theorem spec_C5_amended_witness :
    (handleManualInput 1 800 600 (some 1) (some 0) (some 0) (some 200) (some 50)).width
      = (manualClampedState 1 800 600 (some 0) (some 0) (some 200) (some 50)).height * 1
    ∧ (handleManualInput 1 800 600 (some 1) (some 0) (some 0) (some 200) (some 50)).height
      = (manualClampedState 1 800 600 (some 0) (some 0) (some 200) (some 50)).height :=
  (spec_C5_amended 1 800 600 1 (some 0) (some 0) (some 200) (some 50)
      (by norm_num)
      (by norm_num [manualClampedState, clamp, jsOr, min_def, max_def])).1
    (by norm_num [manualClampedState, clamp, jsOr, min_def, max_def])

/-- C6 is false on the code: after uploading a 20000 × 20000 image with
scale 8 selected, the selection falls back through 4x to 2x and the 8x and
4x cards are disabled as claimed, but the 2x option remains enabled even
though its projected output 20000 · 2 also exceeds the 10000-pixel limit —
the handler never disables the 2x card. -/
theorem spec_C6_counterexample :
    upscaleSelectStep 20000 20000 ⟨true, true, true, 8⟩
      = ⟨true, false, false, 2⟩
    ∧ 10000 < 20000 * 2 := by
  constructor
  · decide
  · norm_num

/-- C6 amended: after a new upload the 8x and 4x options are enabled
exactly when their projected output stays within 10000 px on both axes,
the 2x option is never touched, and the selection is demoted 8 → 4 → 2 as
the options it rests on become invalid; in particular the 20000 × 20000
upload with 8 selected ends at 2 with 8x and 4x disabled. -/
theorem spec_C6_amended (w h : ℕ) (o : UpscaleOptions) :
    ((upscaleSelectStep w h o).enabled8 = true ↔ w * 8 ≤ 10000 ∧ h * 8 ≤ 10000)
    ∧ ((upscaleSelectStep w h o).enabled4 = true ↔ w * 4 ≤ 10000 ∧ h * 4 ≤ 10000)
    ∧ (upscaleSelectStep w h o).enabled2 = o.enabled2
    ∧ (upscaleSelectStep w h o).selected
        = (if (10000 < w * 8 ∨ 10000 < h * 8) ∧ o.selected = 8 then
             if 10000 < w * 4 ∨ 10000 < h * 4 then 2 else 4
           else if (10000 < w * 4 ∨ 10000 < h * 4) ∧ o.selected = 4 then 2
           else o.selected)
    ∧ upscaleSelectStep 20000 20000 ⟨true, true, true, 8⟩
        = ⟨true, false, false, 2⟩ := by
  refine ⟨?_, ?_, ?_, ?_, by decide⟩ <;>
    unfold upscaleSelectStep <;> dsimp only <;>
    split_ifs <;> simp_all <;> omega

/-- C8 is false on the code as far as "verbatim" goes: a failing upscale
call with detail "boom" leaves the whole session state untouched, but the
user-facing toast is "Upscale failed: boom", not the detail text alone. -/
theorem spec_C8_counterexample :
    errorMessageFromResponse "Upscale failed" (some "boom") = "boom"
    ∧ (processUpscaleStep ⟨some "a.png", none, 100, 100, 2⟩ (.error "boom")).session
        = ⟨some "a.png", none, 100, 100, 2⟩
    ∧ (processUpscaleStep ⟨some "a.png", none, 100, 100, 2⟩ (.error "boom")).toast
        = "Upscale failed: boom"
    ∧ "Upscale failed: boom" ≠ "boom" := by
  refine ⟨rfl, ?_, ?_, by decide⟩ <;> decide

/-- C8 amended: a failing processing call leaves every session field —
asset references, dimensions and configured parameters — unchanged, so the
user can immediately retry, and the `detail` text of the response is
embedded verbatim inside a tool-prefixed toast ("Upscale failed: <detail>",
"Crop failed: <detail>"); an absent or empty detail falls back to the
tool's default message. -/
theorem spec_C8_amended :
    (∀ (s : UpscaleSession) (f msg : String),
        s.uploadedFilename = some f →
        s.originalWidth * s.selectedScale ≤ 10000 →
        s.originalHeight * s.selectedScale ≤ 10000 →
        (processUpscaleStep s (.error msg)).session = s
          ∧ (processUpscaleStep s (.error msg)).toast = "Upscale failed: " ++ msg)
    ∧ (∀ (c : CropSession) (f msg : String),
        c.uploadedFilename = some f →
        (applyCropStep c (.error msg)).session = c
          ∧ (applyCropStep c (.error msg)).toast = "Crop failed: " ++ msg)
    ∧ (∀ dm d : String, d ≠ "" → errorMessageFromResponse dm (some d) = d) := by
  refine ⟨?_, ?_, ?_⟩
  · intro s f msg h1 h2 h3
    obtain ⟨uf, pf, ow, oh, sc⟩ := s
    dsimp only at h1 h2 h3
    subst h1
    unfold processUpscaleStep
    rw [if_neg]
    · exact ⟨rfl, rfl⟩
    · simp only [not_or, not_lt]
      exact ⟨h2, h3⟩
  · intro c f msg h1
    obtain ⟨uf, iw, ih⟩ := c
    dsimp only at h1
    subst h1
    exact ⟨rfl, rfl⟩
  · intro dm d hd
    unfold errorMessageFromResponse
    dsimp only
    rw [if_neg hd]

/-- Witness for C8 amended: a failed upscale on a 10 × 10 image at scale 4
keeps the session intact, and a failed crop toast carries the prefixed
message. -/
theorem spec_C8_amended_witness :
    (processUpscaleStep ⟨some "x.png", none, 10, 10, 4⟩ (.error "oops")).session
      = ⟨some "x.png", none, 10, 10, 4⟩
    ∧ (applyCropStep ⟨some "x.png", 10, 10⟩ (.error "oops")).toast
      = "Crop failed: " ++ "oops" :=
  ⟨(spec_C8_amended.1 ⟨some "x.png", none, 10, 10, 4⟩ "x.png" "oops" rfl
      (by norm_num) (by norm_num)).1,
   (spec_C8_amended.2.1 ⟨some "x.png", 10, 10⟩ "x.png" "oops" rfl).2⟩

end PixelMagic
